import Mathlib

/-!
Shallow embedding of the two hook files of the `tk-config-juice-work`
repository:

* `hooks/tk-multi-publish2/maya/collector.py` — `MayaSessionCollector`
  (`process_current_session`, `_collect_cameras`, `_collect_render_job`,
  `_get_scene_name`);
* `hooks/tk-multi-publish2/maya/publish_render_to_deadline.py` —
  `MayaPublishJobToDeadline` (`accept`, `validate`, `publish`,
  `_check_submit_command`, `_get_render_output`, `_session_path`).

The external world (Maya scene queries, the sgtk template registry, the
Shotgun connection, the Deadline submission dialog) is modelled as an
explicit environment record `MayaEnv`; Python exceptions are modelled with
`Except PyError`; Python dict access keeps dict semantics (a missing key is
a `KeyError`, assignment replaces or appends a binding).
-/

/-- Python exceptions that the embedded code can raise. -/
inductive PyError where
  /-- `KeyError`: dict subscript on a missing key
      (`item.properties[...]`, `tk.templates[...]`). -/
  | keyError
  /-- `IndexError`: list subscript out of range (`scene_name.split('.')[-2]`
      on a list shorter than 2). -/
  | indexError
  /-- `TypeError`: subscripting `None` (`department['department']` when
      `sg.find_one` returned no record). -/
  | typeError
  /-- The `Exception("The Maya session has not been saved.")` raised by
      `validate` after logging the error with
      `extra=_get_save_as_action()` — i.e. the "Save As..." recovery
      action is attached to this (and only this) raise. -/
  | sessionNotSaved
deriving DecidableEq

/-- A value stored in an item's `properties` dict.  The code stores strings
(`render_job_name`, `path`, camera names), template objects
(`publish_template`), and `accept` compares the job name against `None`. -/
inductive PVal where
  /-- Python `None`. -/
  | noneV
  /-- A Python string. -/
  | str (s : String)
  /-- A resolved sgtk template object, identified by the string it renders
      to; only used as an opaque truthy value by the embedded code. -/
  | template (t : String)
deriving DecidableEq

/-- `"%s" % v`: Python string formatting of a property value
(`"%s" % None` is `"None"`). -/
def PVal.format : PVal → String
  | .noneV => "None"
  | .str s => s
  | .template t => t

/-- Python truthiness of a property value (`not job_name`):
`None` and `""` are falsy. -/
def PVal.truthy : PVal → Bool
  | .noneV => false
  | .str s => !(s = "")
  | .template _ => true

/-- Python truthiness of an optional string (`not template_name` where the
setting's `.value` may be `None`). -/
def optStrTruthy : Option String → Bool
  | Option.none => false
  | some s => !(s = "")

/-- Python dict read `d[k]` on a string-keyed dict modelled as an
association list: the first binding wins, a missing key is a `KeyError`. -/
def propsGet : List (String × PVal) → String → Option PVal
  | [], _ => Option.none
  | (k, v) :: rest, key => if k = key then some v else propsGet rest key

/-- Python dict write `d[k] = v`: replace the existing binding in place,
or append a new one. -/
def propsSet : List (String × PVal) → String → PVal → List (String × PVal)
  | [], key, v => [(key, v)]
  | (k, w) :: rest, key, v =>
      if k = key then (key, v) :: rest else (k, w) :: propsSet rest key v

/-- A publish item (node of the collected item tree).  Only the attributes
the embedded hooks read or write are modelled. -/
structure Item where
  /-- The item type tag passed to `create_item` (e.g.
      `"maya.session.render_job"`). -/
  typeSpec : String
  /-- The display type passed to `create_item` (e.g. `"Render Job"`). -/
  displayType : String
  /-- The display name passed to `create_item`. -/
  displayName : String
  /-- The `properties` dict. -/
  properties : List (String × PVal)
  /-- `item.context_change_allowed`; the framework creates items with it
      enabled. -/
  contextChangeAllowed : Bool
deriving DecidableEq

/-- The external world as the embedded hooks observe it: Maya scene state,
the sgtk template registry and context, the Shotgun connection and the
Deadline submitter. -/
structure MayaEnv where
  /-- Whether `parent_item.descendants` contains an item with
      `type_spec == 'maya.session'`. -/
  hasSessionItem : Bool
  /-- `cmds.ls(cameras=True)`: the camera shapes of the scene. -/
  cameras : List String
  /-- `cmds.listRelatives(shape, parent=True)[0]`: the transform parent of
      a camera shape; `Option.none` models the lookup raising (caught by
      the bare `except Exception`). -/
  cameraParent : String → Option String
  /-- `cmds.file(query=True, sceneName=True, shortName=True)`: the short
      scene file name, `""` when the scene has never been saved. -/
  sceneName : String
  /-- `cmds.file(query=True, sn=True)` as returned by `_session_path`
      (the `unicode` branch only re-encodes the same characters);
      `""` when the session has never been saved. -/
  sessionPath : String
  /-- The sgtk template registry composed with field application for the
      current context: for a template name, `some s` is
      `tk.templates[name].apply_fields(ctx.as_template_fields(...))`,
      and `Option.none` means the name is not a key of `tk.templates`
      (so subscripting raises `KeyError` and
      `publisher.get_template_by_name` returns `None`). -/
  templates : String → Option String
  /-- `sgtk.util.ShotgunPath.normalize`, an external path normalizer. -/
  normalize : String → String
  /-- `mel.eval("exists \"SubmitJobToDeadline\"")`. -/
  submitCommandExists : Bool
  /-- `ctx.project['id']`. -/
  projectId : Int
  /-- `ctx.task['id']`. -/
  taskId : Int
  /-- `ctx.user['id']`. -/
  userId : Int
  /-- `sg.find_one(user_type, [['id','is',user_id]], ['department'])`:
      `Option.none` models no matching record (Python `None`);
      `some Option.none` a record whose `department` field is null;
      `some (some n)` a record whose department's `name` is `n`
      (only `['name']` of the nested department entity is ever read). -/
  findOneUser : Option (Option String)
  /-- `int(cmds.playbackOptions(query=True, min=True))`. -/
  firstFrame : Int
  /-- `int(cmds.playbackOptions(query=True, max=True))`. -/
  lastFrame : Int
  /-- The result of the inherited
      `super(MayaPublishJobToDeadline, self).validate(settings, item)`. -/
  baseValidate : Bool

/-- The publish plugin's resolved settings: `settings["Publish Template"]
.value` (a `template`-typed setting whose default is `None`). -/
structure Settings where
  publishTemplate : Option String

/-- The result of `_get_scene_name`: either the Python `False` sentinel
(unsaved scene) or a string. -/
inductive SceneName where
  | sentinelFalse
  | name (s : String)
deriving DecidableEq

/-- `"%s" % v` for the value returned by `_get_scene_name`
(`"%s" % False` is `"False"`). -/
def SceneName.format : SceneName → String
  | .sentinelFalse => "False"
  | .name s => s

/-- Python `str.split(sep)` for a one-character separator, on the
character list: splitting never yields the empty list (splitting the empty
string gives one empty segment, as in Python). -/
def splitOnCharAux (sep : Char) : List Char → List (List Char)
  | [] => [[]]
  | c :: cs =>
      match splitOnCharAux sep cs with
      | [] => [[]]
      | seg :: rest =>
          if c = sep then [] :: seg :: rest else (c :: seg) :: rest

/-- Python `scene_name.split('.')`. -/
def pySplitDot (s : String) : List String :=
  (splitOnCharAux '.' s.data).map String.mk

/-- Python `xs[-2]` on a list of strings: `IndexError` when the list has
fewer than two elements. -/
def pyIdxNeg2 (xs : List String) : Except PyError String :=
  if h : 2 ≤ xs.length then
    Except.ok (xs.get ⟨xs.length - 2, by omega⟩)
  else
    Except.error PyError.indexError

/-- `MayaSessionCollector._get_scene_name`:
query the short scene name; return `False` when it is empty, otherwise
`scene_name.split('.')[-2]`. -/
def getSceneName (sceneName : String) : Except PyError SceneName :=
  if sceneName = "" then       -- len(scene_name) == 0
    Except.ok SceneName.sentinelFalse
  else
    match pyIdxNeg2 (pySplitDot sceneName) with
    | Except.ok s => Except.ok (SceneName.name s)
    | Except.error e => Except.error e

/-- The camera item built by one iteration of
`MayaSessionCollector._collect_cameras`: display name from the transform
parent, falling back to the shape itself when the lookup raises. -/
def collectCameraItem (env : MayaEnv) (shape : String) : Item :=
  let cameraName :=
    match env.cameraParent shape with
    | some p => p
    | Option.none => shape
  { typeSpec := "maya.session.camera"
    displayType := "Camera"
    displayName := cameraName
    properties := [("camera_name", PVal.str cameraName),
                   ("camera_shape", PVal.str shape)]
    contextChangeAllowed := true }

/-- `MayaSessionCollector._collect_cameras`: one camera item per camera
shape in the scene, in order. -/
def collectCameras (env : MayaEnv) : List Item :=
  env.cameras.map (collectCameraItem env)

/-- `MayaSessionCollector._collect_render_job`: derive the job name from
`_get_scene_name`, format it as `"RenderJob_%s"`, create one item of type
`maya.session.render_job` carrying the name in `render_job_name`. -/
def collectRenderJob (env : MayaEnv) : Except PyError Item :=
  match getSceneName env.sceneName with
  | Except.error e => Except.error e
  | Except.ok sn =>
      let renderJobName := "RenderJob_" ++ sn.format
      Except.ok
        { typeSpec := "maya.session.render_job"
          displayType := "Render Job"
          displayName := renderJobName
          properties := [("render_job_name", PVal.str renderJobName)]
          contextChangeAllowed := true }

/-- `MayaSessionCollector.process_current_session`: silently return when no
`maya.session` item exists among the descendants, otherwise collect the
camera items and the render-job item under it. -/
def process_current_session (env : MayaEnv) : Except PyError (List Item) :=
  if !env.hasSessionItem then
    Except.ok []
  else
    match collectRenderJob env with
    | Except.error e => Except.error e
    | Except.ok rj => Except.ok (collectCameras env ++ [rj])

/-- `_session_path`: `cmds.file(query=True, sn=True)` (the `unicode`
re-encoding preserves the characters). -/
def sessionPathQ (env : MayaEnv) : String :=
  env.sessionPath

/-- `tk.templates[template_name]` composed with context field application:
the setting's value may be Python `None`, which is never a key of the
string-keyed registry, so subscripting raises `KeyError`; an unknown name
also raises `KeyError`. -/
def templatesSubscript (env : MayaEnv) :
    Option String → Except PyError String
  | Option.none => Except.error PyError.keyError
  | some n =>
      match env.templates n with
      | some base => Except.ok base
      | Option.none => Except.error PyError.keyError

/-- `MayaPublishJobToDeadline._get_render_output`: resolve the template,
apply the context fields, append `"/%s/" % job_name` and normalize. -/
def getRenderOutput (env : MayaEnv) (jobName : PVal)
    (templateName : Option String) : Except PyError String :=
  match templatesSubscript env templateName with
  | Except.error e => Except.error e
  | Except.ok base =>
      Except.ok (env.normalize (base ++ "/" ++ jobName.format ++ "/"))

/-- `publisher.get_template_by_name(template_name)`: a dict `get` on the
same registry — `None` (not `KeyError`) for a missing or `None` name. -/
def getTemplateByName (env : MayaEnv) : Option String → Option String
  | Option.none => Option.none
  | some n => env.templates n

/-- The acceptance dict returned by `accept`; the plugin only ever sets the
required `accepted` key. -/
structure AcceptResult where
  accepted : Bool
deriving DecidableEq

/-- `MayaPublishJobToDeadline.accept`: reject when `render_job_name` is
`None`; resolve the configured "Publish Template" (cache it on the item
and disable context changes) or reject; reject when the
`SubmitJobToDeadline` command is missing; accept otherwise.  The final
item state is returned alongside the result, since the property cache and
the context-change flag are in-place mutations. -/
def accept (env : MayaEnv) (settings : Settings) (item : Item) :
    Except PyError AcceptResult × Item :=
  match propsGet item.properties "render_job_name" with
  | Option.none => (Except.error PyError.keyError, item)
  | some rjn =>
      if rjn = PVal.noneV then
        (Except.ok { accepted := false }, item)
      else
        match getTemplateByName env settings.publishTemplate with
        | some t =>
            let item :=
              { item with
                properties :=
                  propsSet item.properties "publish_template"
                    (PVal.template t)
                contextChangeAllowed := false }
            if !env.submitCommandExists then
              (Except.ok { accepted := false }, item)
            else
              (Except.ok { accepted := true }, item)
        | Option.none => (Except.ok { accepted := false }, item)

/-- `MayaPublishJobToDeadline.validate`: compute the render output path and
cache it under `properties["path"]`; raise (after logging with the
"Save As..." action) when the session was never saved; soft-fail with
`False` on a falsy job name or template name; otherwise defer to the base
validator.  The final item state is returned alongside the result. -/
def validate (env : MayaEnv) (settings : Settings) (item : Item) :
    Except PyError Bool × Item :=
  match propsGet item.properties "render_job_name" with
  | Option.none => (Except.error PyError.keyError, item)
  | some jobName =>
      let templateName := settings.publishTemplate
      match getRenderOutput env jobName templateName with
      | Except.error e => (Except.error e, item)
      | Except.ok ro =>
          let renderOutput := ro ++ "/" ++ jobName.format
          let item :=
            { item with
              properties := propsSet item.properties "path"
                (PVal.str renderOutput) }
          let path := sessionPathQ env
          if path = "" then
            (Except.error PyError.sessionNotSaved, item)
          else
            match propsGet item.properties "render_job_name" with
            | Option.none => (Except.error PyError.keyError, item)
            | some jobName2 =>
                if !jobName2.truthy then
                  (Except.ok false, item)
                else if !optStrTruthy templateName then
                  (Except.ok false, item)
                else
                  (Except.ok env.baseValidate, item)

/-- CPython 2.7's string hash (64-bit build), as the unsigned 64-bit bit
pattern (this code is Python 2: it uses the `unicode` builtin at
`publish_render_to_deadline.py:361`): `x = s[0] << 7`; for each byte `c`,
`x = (1000003*x) ^ c`, wrapping at 64 bits; finally `x ^= len(s)`, with
`-1` replaced by `-2` and the empty string hashing to `0`. -/
def py2StringHash (s : String) : Nat :=
  match s.data with
  | [] => 0
  | c :: _ =>
      let x0 := (c.toNat <<< 7) % (2 ^ 64)
      let x := s.data.foldl
        (fun x ch => ((1000003 * x) % (2 ^ 64)) ^^^ ch.toNat) x0
      let x := x ^^^ s.length
      if x = 2 ^ 64 - 1 then 2 ^ 64 - 2 else x

/-- The slot a key occupies in CPython 2.7's 8-slot small dict table:
`hash & 7` (valid as the probe's first slot; exact when no keys
collide). -/
def py2Slot (s : String) : Nat :=
  py2StringHash s &&& 7

/-- Insert an entry into a list kept in increasing hash-slot order
(entries with equal slots keep their relative order). -/
def insertBySlot (kv : String × Int) :
    List (String × Int) → List (String × Int)
  | [] => [kv]
  | hd :: tl =>
      if py2Slot kv.1 < py2Slot hd.1 then kv :: hd :: tl
      else hd :: insertBySlot kv tl

/-- Order a key/value list by the table slot of each key: CPython 2.7
dict iteration — and hence `str(dict)` — walks the hash-table slots in
index order, not insertion order. Faithful whenever the keys occupy
pairwise distinct slots (no probing). -/
def slotOrder : List (String × Int) → List (String × Int)
  | [] => []
  | hd :: tl => insertBySlot hd (slotOrder tl)

/-- CPython 2.7 `str` of a small string-keyed int dict whose keys occupy
distinct hash slots: the entries in slot order, rendered as
`\x7b'key': value, ...\x7d`. -/
def py2DictRepr (entries : List (String × Int)) : String :=
  "\x7b" ++ String.intercalate ", "
    ((slotOrder entries).map
      (fun kv => "\x27" ++ kv.1 ++ "\x27: " ++ toString kv.2)) ++ "\x7d"

/-- `str({'project_id': p, 'task_id': t, 'user_id': u})` as the program
computes it under CPython 2.7: the keys hash to the pairwise distinct
slots 3 (`project_id`), 4 (`user_id`) and 6 (`task_id`), so the repr
lists `user_id` before `task_id`, not the insertion order of the
source's dict literal. -/
def dictReprCtx (p t u : Int) : String :=
  py2DictRepr [("project_id", p), ("task_id", t), ("user_id", u)]

/-- The context-dict keys occupy the distinct small-table slots 3, 4 and
6, the regime in which `slotOrder` is the exact dict iteration order. -/
theorem py2Slot_ctxKeys :
    py2Slot "project_id" = 3 ∧ py2Slot "user_id" = 4 ∧
    py2Slot "task_id" = 6 := by
  decide

/-- The seven fields of the Deadline submission dialog that `publish`
edits, with the enable flags it sets. -/
structure Dialog where
  /-- `frw_JobName`, set to the composite `_SG_DATA_` label, disabled. -/
  jobNameText : String
  jobNameEnabled : Bool
  /-- `frw_Department`, set to the looked-up department (possibly `None`),
      disabled. -/
  departmentText : Option String
  departmentEnabled : Bool
  /-- `frw_deadlinePool`. -/
  pool : String
  /-- `frw_deadlineSecondaryPool`. -/
  secondaryPool : String
  /-- `frw_Group`. -/
  group : String
  /-- `frw_outputFilePath`, set to the recomputed render output. -/
  outputPathText : String
  /-- `frw_FrameList`, `"%s-%s" % (first_frame, last_frame)`. -/
  frameListText : String
  /-- `frw_JobPriority`. -/
  priority : Int
deriving DecidableEq

/-- `MayaPublishJobToDeadline.publish`: open the submission dialog,
recompute the render output, look up the user's department
(`None['department']` raises `TypeError` when no record was found), build
the `"<job_name>_SG_DATA_<dict-repr>"` label, and populate the dialog
fields; finally store the recomputed output under `properties["path"]`.
The final item state is returned alongside the dialog. -/
def publish (env : MayaEnv) (settings : Settings) (item : Item) :
    Except PyError Dialog × Item :=
  match propsGet item.properties "render_job_name" with
  | Option.none => (Except.error PyError.keyError, item)
  | some jobName =>
      match getRenderOutput env jobName settings.publishTemplate with
      | Except.error e => (Except.error e, item)
      | Except.ok renderOutput =>
          -- render_output = '%s/%s' % (render_output, job_name) is
          -- commented out in the source ("DO WYWALENIA?").
          match env.findOneUser with
          | Option.none => (Except.error PyError.typeError, item)
          | some dept =>
              let department : Option String := dept
              let dataToSend :=
                jobName.format ++ "_SG_DATA_" ++
                  dictReprCtx env.projectId env.taskId env.userId
              let dlg : Dialog :=
                { jobNameText := dataToSend
                  jobNameEnabled := false
                  departmentText := department
                  departmentEnabled := false
                  pool := "maya"
                  secondaryPool := "maya"
                  group := "64"
                  outputPathText := renderOutput
                  frameListText :=
                    toString env.firstFrame ++ "-" ++
                      toString env.lastFrame
                  priority := 90 }
              let item :=
                { item with
                  properties := propsSet item.properties "path"
                    (PVal.str renderOutput) }
              (Except.ok dlg, item)

/-! ### Dict lemmas -/

theorem propsGet_propsSet_self (ps : List (String × PVal)) (k : String)
    (v : PVal) : propsGet (propsSet ps k v) k = some v := by
  induction ps with
  | nil => simp [propsSet, propsGet]
  | cons hd tl ih =>
      obtain ⟨k', w⟩ := hd
      by_cases h : k' = k
      · simp [propsSet, propsGet, h]
      · simp [propsSet, propsGet, h, ih]

theorem propsGet_propsSet_of_ne (ps : List (String × PVal)) (k key : String)
    (v : PVal) (h : ¬ k = key) :
    propsGet (propsSet ps k v) key = propsGet ps key := by
  induction ps with
  | nil => simp [propsSet, propsGet, h]
  | cons hd tl ih =>
      obtain ⟨k', w⟩ := hd
      by_cases h' : k' = k
      · subst h'
        simp [propsSet, propsGet, h]
      · by_cases h'' : k' = key
        · have hk : ¬ key = k := fun hh => h hh.symm
          simp [propsSet, propsGet, h', h'', hk]
        · simp [propsSet, propsGet, h', h'', ih]

/-! ### The dialog state `publish` builds on success -/

/-- The field values `publish` pushes into the submission dialog when it
completes: job `jn`, department `dept` (the nested department name, or
`None`), render output `ro`. -/
def builtDialog (env : MayaEnv) (jn : PVal) (dept : Option String)
    (ro : String) : Dialog :=
  { jobNameText := jn.format ++ "_SG_DATA_" ++
      dictReprCtx env.projectId env.taskId env.userId
    jobNameEnabled := false
    departmentText := dept
    departmentEnabled := false
    pool := "maya"
    secondaryPool := "maya"
    group := "64"
    outputPathText := ro
    frameListText := toString env.firstFrame ++ "-" ++ toString env.lastFrame
    priority := 90 }

theorem publish_spec (env : MayaEnv) (s : Settings) (item : Item)
    (jn : PVal) (ro : String) (d : Option String)
    (hjn : propsGet item.properties "render_job_name" = some jn)
    (hro : getRenderOutput env jn s.publishTemplate = Except.ok ro)
    (hd : env.findOneUser = some d) :
    publish env s item =
      (Except.ok (builtDialog env jn d ro),
       { item with
         properties := propsSet item.properties "path" (PVal.str ro) }) := by
  simp [publish, builtDialog, hjn, hro, hd]

/-! ### Concrete fixtures used by witnesses and counterexamples -/

/-- A collection-only environment: session item present, no cameras, and
the given short scene name. -/
def envBare (scene : String) : MayaEnv :=
  { hasSessionItem := true
    cameras := []
    cameraParent := fun _ => Option.none
    sceneName := scene
    sessionPath := ""
    templates := fun _ => Option.none
    normalize := id
    submitCommandExists := false
    projectId := 0
    taskId := 0
    userId := 0
    findOneUser := Option.none
    firstFrame := 0
    lastFrame := 0
    baseValidate := true }

/-- A saved-session publishing environment: one template named
`"render_template"` rendering to `"base"`, identity path normalization,
context ids 7/42/3, a user record with department name `"comp"`, playback
range 1..24. -/
def envSaved : MayaEnv :=
  { hasSessionItem := true
    cameras := []
    cameraParent := fun _ => Option.none
    sceneName := "scene.ma"
    sessionPath := "scene.ma"
    templates := fun n => if n = "render_template" then some "base" else Option.none
    normalize := id
    submitCommandExists := true
    projectId := 7
    taskId := 42
    userId := 3
    findOneUser := some (some "comp")
    firstFrame := 1
    lastFrame := 24
    baseValidate := true }

/-- `envSaved` with the session never saved. -/
def envUnsaved : MayaEnv :=
  { envSaved with sessionPath := "" }

/-- `envSaved` where `sg.find_one` returns no record. -/
def envNoRecord : MayaEnv :=
  { envSaved with findOneUser := Option.none }

/-- `envSaved` where the user record carries a null `department` field. -/
def envDeptNull : MayaEnv :=
  { envSaved with findOneUser := some Option.none }

/-- Settings resolving the "Publish Template" setting to
`"render_template"`. -/
def setTpl : Settings :=
  { publishTemplate := some "render_template" }

/-- A collected render-job item for `"RenderJob_shot010"`. -/
def itemJob : Item :=
  { typeSpec := "maya.session.render_job"
    displayType := "Render Job"
    displayName := "RenderJob_shot010"
    properties := [("render_job_name", PVal.str "RenderJob_shot010")]
    contextChangeAllowed := true }

/-- `itemJob` with its `render_job_name` property set to `None`. -/
def itemNoneJob : Item :=
  { itemJob with properties := [("render_job_name", PVal.noneV)] }

/-- `itemJob` with a falsy (empty-string) `render_job_name`. -/
def itemEmptyJob : Item :=
  { itemJob with properties := [("render_job_name", PVal.str "")] }

/-- `itemJob` with an empty `properties` dict. -/
def itemNoProps : Item :=
  { itemJob with properties := [] }

/-! ### Claim C1 -/

/-- C1 counterexample: the claim states that for the scene named
`"shot010_comp.v003.ma"` the derived render-job name is
`"shot010_comp.v003"`; the code (`scene_name.split('.')[-2]`) instead
derives `"v003"`. -/
theorem C1_counterexample :
    getSceneName "shot010_comp.v003.ma" = Except.ok (SceneName.name "v003") ∧
    "v003" ≠ "shot010_comp.v003" := by
  exact ⟨rfl, by decide⟩

/-- C1 (amended): for every saved scene whose short name splits on `.` into
at least two segments, the collector derives the second-to-last segment as
the job-name stem and creates the render-job item named
`"RenderJob_<stem>"` carrying that name in `render_job_name` — so the
scene `"shot010_comp.v003.ma"` yields `"RenderJob_v003"` (not
`"RenderJob_shot010_comp.v003"`); for an unsaved scene (empty scene name)
the derived name is the falsy sentinel `False` and the item is named
`"RenderJob_False"`. -/
theorem C1_theorem :
    (∀ env : MayaEnv, ¬ env.sceneName = "" →
      2 ≤ (pySplitDot env.sceneName).length →
      ∃ seg,
        (pySplitDot env.sceneName).get?
          ((pySplitDot env.sceneName).length - 2) = some seg ∧
        ∃ item, collectRenderJob env = Except.ok item ∧
          item.displayName = "RenderJob_" ++ seg ∧
          propsGet item.properties "render_job_name" =
            some (PVal.str ("RenderJob_" ++ seg))) ∧
    (∃ item, collectRenderJob (envBare "shot010_comp.v003.ma") =
        Except.ok item ∧ item.displayName = "RenderJob_v003") ∧
    (∃ item, collectRenderJob (envBare "") = Except.ok item ∧
      item.displayName = "RenderJob_False" ∧
      propsGet item.properties "render_job_name" =
        some (PVal.str "RenderJob_False")) := by
  refine ⟨?_, ⟨_, rfl, rfl⟩, ⟨_, rfl, rfl, rfl⟩⟩
  intro env h1 h2
  have hlt : (pySplitDot env.sceneName).length - 2 <
      (pySplitDot env.sceneName).length := by omega
  refine ⟨(pySplitDot env.sceneName).get
    ⟨(pySplitDot env.sceneName).length - 2, hlt⟩, ?_, ?_⟩
  · exact List.get?_eq_get hlt
  · unfold collectRenderJob getSceneName pyIdxNeg2
    rw [if_neg h1, dif_pos h2]
    exact ⟨_, rfl, rfl, rfl⟩

/-- C1 witness: the amended statement instantiated at the scene named
`"shot010_comp.v003.ma"`. -/
theorem C1_witness :
    ∃ seg,
      (pySplitDot "shot010_comp.v003.ma").get?
        ((pySplitDot "shot010_comp.v003.ma").length - 2) = some seg ∧
      ∃ item, collectRenderJob (envBare "shot010_comp.v003.ma") =
        Except.ok item ∧
        item.displayName = "RenderJob_" ++ seg ∧
        propsGet item.properties "render_job_name" =
          some (PVal.str ("RenderJob_" ++ seg)) :=
  C1_theorem.1 (envBare "shot010_comp.v003.ma") (by decide) (by decide)

/-! ### Claim C2 -/

/-- C2: whenever the queried session path is empty, `validate` raises —
whatever the job name, template name, or other fields hold — and in the
designated case (job-name property readable, template resolvable) the
raise is the `sessionNotSaved` exception, the one logged with the
"Save As..." recovery action attached. -/
theorem C2_theorem (env : MayaEnv) (s : Settings) (item : Item)
    (hpath : env.sessionPath = "") :
    (∃ e, (validate env s item).1 = Except.error e) ∧
    (∀ jn ro, propsGet item.properties "render_job_name" = some jn →
      getRenderOutput env jn s.publishTemplate = Except.ok ro →
      (validate env s item).1 = Except.error PyError.sessionNotSaved) := by
  cases hjn : propsGet item.properties "render_job_name" with
  | none =>
      refine ⟨⟨PyError.keyError, by simp [validate, hjn]⟩, ?_⟩
      intro jn ro h1 h2
      cases h1
  | some jn =>
      cases hro : getRenderOutput env jn s.publishTemplate with
      | error e =>
          refine ⟨⟨e, by simp [validate, hjn, hro]⟩, ?_⟩
          intro jn' ro h1 h2
          cases h1
          rw [hro] at h2
          cases h2
      | ok ro =>
          have hmain : (validate env s item).1 =
              Except.error PyError.sessionNotSaved := by
            simp [validate, hjn, hro, sessionPathQ, hpath]
          exact ⟨⟨PyError.sessionNotSaved, hmain⟩, fun _ _ _ _ => hmain⟩

/-- C2 witness: with an unsaved session, a well-formed render-job item and
a resolvable template, `validate` raises the session-not-saved
exception. -/
theorem C2_witness :
    (validate envUnsaved setTpl itemJob).1 =
      Except.error PyError.sessionNotSaved :=
  (C2_theorem envUnsaved setTpl itemJob rfl).2
    (PVal.str "RenderJob_shot010") "base/RenderJob_shot010/" rfl rfl

/-! ### Claim C3 -/

/-- C3 counterexample: with a saved session and a job name present, but
the "Publish Template" setting value `None`, `validate` does not return
`False` — it raises the `KeyError` coming from `tk.templates[None]` in
`_get_render_output`, which runs before the soft checks. -/
theorem C3_counterexample :
    (validate envSaved { publishTemplate := Option.none } itemJob).1 =
      Except.error PyError.keyError ∧
    ¬ (validate envSaved { publishTemplate := Option.none } itemJob).1 =
      Except.ok false := by
  refine ⟨rfl, fun h => ?_⟩
  rw [show (validate envSaved { publishTemplate := Option.none } itemJob).1 =
    Except.error PyError.keyError from rfl] at h
  cases h

/-- C3 (amended): for a saved session where the job-name property reads
back and the template resolves, a falsy job name makes `validate` return
`False` (soft rejection, no raise); but a missing ("Publish Template"
value `None`) template never reaches the soft check — `validate` raises
`KeyError` from the template-registry subscript instead. -/
theorem C3_theorem (env : MayaEnv) (s : Settings) (item : Item) :
    (∀ jn ro, ¬ env.sessionPath = "" →
      propsGet item.properties "render_job_name" = some jn →
      getRenderOutput env jn s.publishTemplate = Except.ok ro →
      jn.truthy = false →
      (validate env s item).1 = Except.ok false) ∧
    (s.publishTemplate = Option.none →
      (validate env s item).1 = Except.error PyError.keyError) := by
  constructor
  · intro jn ro hpath hjn hro htr
    have hre : propsGet (propsSet item.properties "path"
        (PVal.str (ro ++ "/" ++ jn.format))) "render_job_name" = some jn := by
      rw [propsGet_propsSet_of_ne _ _ _ _ (by decide)]
      exact hjn
    simp [validate, hjn, hro, sessionPathQ, hpath, hre, htr]
  · intro htpl
    cases hjn : propsGet item.properties "render_job_name" with
    | none => simp [validate, hjn]
    | some jn =>
        have hro : getRenderOutput env jn s.publishTemplate =
            Except.error PyError.keyError := by
          rw [htpl]
          rfl
        simp [validate, hjn, hro]

/-- C3 witness: the amended statement at concrete inputs — a saved session
with an empty-string job name soft-fails with `False`, and a `None`
template value raises `KeyError`. -/
theorem C3_witness :
    (validate envSaved setTpl itemEmptyJob).1 = Except.ok false ∧
    (validate envSaved { publishTemplate := Option.none } itemNoneJob).1 =
      Except.error PyError.keyError :=
  ⟨(C3_theorem envSaved setTpl itemEmptyJob).1 (PVal.str "") "base//"
      (by decide) rfl rfl rfl,
   (C3_theorem envSaved { publishTemplate := Option.none } itemNoneJob).2 rfl⟩

/-! ### Claim C4 -/

/-- C4 counterexample: when the `render_job_name` property is absent from
the item, `accept` does not return `{"accepted": False}` — the property
subscript raises `KeyError`. -/
theorem C4_counterexample :
    (accept envSaved setTpl itemNoProps).1 = Except.error PyError.keyError ∧
    ¬ (accept envSaved setTpl itemNoProps).1 =
      Except.ok { accepted := false } := by
  refine ⟨rfl, fun h => ?_⟩
  rw [show (accept envSaved setTpl itemNoProps).1 =
    Except.error PyError.keyError from rfl] at h
  cases h

/-- C4 (amended): whenever the item's `render_job_name` property is
present and `None`, `accept` returns exactly `{"accepted": False}` and
leaves the item untouched (no template cached, context-change permission
unchanged), regardless of the settings; when the property is absent, the
lookup raises `KeyError` instead. -/
theorem C4_theorem (env : MayaEnv) (s : Settings) (item : Item)
    (h : propsGet item.properties "render_job_name" = some PVal.noneV) :
    accept env s item = (Except.ok { accepted := false }, item) := by
  simp [accept, h]

/-- C4 witness: the amended statement at a concrete item whose
`render_job_name` is `None`. -/
theorem C4_witness :
    accept envSaved setTpl itemNoneJob =
      (Except.ok { accepted := false }, itemNoneJob) :=
  C4_theorem envSaved setTpl itemNoneJob rfl

/-! ### Claim C5 -/

/-- C5: whenever `accept` answers `{"accepted": True}`, the returned item
carries the resolved template under `publish_template` and has
`context_change_allowed = False`; and the disabling is one-way — none of
the plugin operations (`accept`, `validate`, `publish`) ever turns
`context_change_allowed` back to `True`. -/
theorem C5_theorem (env : MayaEnv) (s : Settings) (item : Item) :
    (∀ r, (accept env s item).1 = Except.ok r → r.accepted = true →
      (∃ t, propsGet (accept env s item).2.properties "publish_template" =
        some (PVal.template t)) ∧
      (accept env s item).2.contextChangeAllowed = false) ∧
    ((accept env s item).2.contextChangeAllowed = true →
      item.contextChangeAllowed = true) ∧
    (validate env s item).2.contextChangeAllowed =
      item.contextChangeAllowed ∧
    (publish env s item).2.contextChangeAllowed =
      item.contextChangeAllowed := by
  refine ⟨?_, ?_, ?_, ?_⟩
  · intro r hr hacc
    cases hjn : propsGet item.properties "render_job_name" with
    | none => simp [accept, hjn] at hr
    | some rjn =>
        by_cases hnone : rjn = PVal.noneV
        · simp [accept, hjn, hnone] at hr
          subst hr
          cases hacc
        · cases htpl : getTemplateByName env s.publishTemplate with
          | none => simp [accept, hjn, hnone, htpl] at hr
                    subst hr
                    cases hacc
          | some t =>
              cases hcmd : env.submitCommandExists with
              | false => simp [accept, hjn, hnone, htpl, hcmd] at hr
                         subst hr
                         cases hacc
              | true =>
                  refine ⟨⟨t, ?_⟩, ?_⟩
                  · simp [accept, hjn, hnone, htpl, hcmd,
                      propsGet_propsSet_self]
                  · simp [accept, hjn, hnone, htpl, hcmd]
  · intro h
    cases hjn : propsGet item.properties "render_job_name" with
    | none => simpa [accept, hjn] using h
    | some rjn =>
        by_cases hnone : rjn = PVal.noneV
        · simpa [accept, hjn, hnone] using h
        · cases htpl : getTemplateByName env s.publishTemplate with
          | none => simpa [accept, hjn, hnone, htpl] using h
          | some t =>
              cases hcmd : env.submitCommandExists with
              | false => simp [accept, hjn, hnone, htpl, hcmd] at h
              | true => simp [accept, hjn, hnone, htpl, hcmd] at h
  · simp only [validate]
    split
    · rfl
    · split
      · rfl
      · split
        · rfl
        · split
          · rfl
          · split
            · rfl
            · split
              · rfl
              · rfl
  · simp only [publish]
    split
    · rfl
    · split
      · rfl
      · split
        · rfl
        · rfl

/-- C5 witness: at a concrete accepted item, the template is cached and
context changes are disabled; and the stickiness implication holds there
too. -/
theorem C5_witness :
    ((∃ t, propsGet (accept envSaved setTpl itemJob).2.properties
        "publish_template" = some (PVal.template t)) ∧
      (accept envSaved setTpl itemJob).2.contextChangeAllowed = false) ∧
    ((accept envSaved setTpl itemJob).2.contextChangeAllowed = true →
      itemJob.contextChangeAllowed = true) :=
  ⟨(C5_theorem envSaved setTpl itemJob).1 { accepted := true } rfl rfl,
   (C5_theorem envSaved setTpl itemJob).2.1⟩

/-! ### Claim C6 -/

/-- C6 counterexample: for the same item, settings and environment,
`validate` caches `"base/RenderJob_shot010//RenderJob_shot010"` under
`properties["path"]` while `publish` recomputes and stores
`"base/RenderJob_shot010/"`: the two computations do not yield the same
string (the `'%s/%s' % (render_output, job_name)` suffix is applied only
in `validate`). -/
theorem C6_counterexample :
    propsGet (validate envSaved setTpl itemJob).2.properties "path" =
      some (PVal.str "base/RenderJob_shot010//RenderJob_shot010") ∧
    propsGet (publish envSaved setTpl itemJob).2.properties "path" =
      some (PVal.str "base/RenderJob_shot010/") ∧
    (∃ dlg, (publish envSaved setTpl itemJob).1 = Except.ok dlg ∧
      dlg.outputPathText = "base/RenderJob_shot010/") ∧
    ("base/RenderJob_shot010//RenderJob_shot010" : String) ≠
      "base/RenderJob_shot010/" := by
  exact ⟨rfl, rfl, ⟨_, rfl, rfl⟩, by decide⟩

/-- C6 (amended): `publish` recomputes the render output through the same
`_get_render_output` call as `validate` — and stores that shared value in
`item.properties["path"]` and the output-path dialog field — but
`validate` caches the value with `"/" ++ job_name` appended, so the two
stored strings differ by exactly that suffix. -/
theorem C6_theorem (env : MayaEnv) (s : Settings) (item : Item)
    (jn : PVal) (ro : String)
    (hjn : propsGet item.properties "render_job_name" = some jn)
    (hro : getRenderOutput env jn s.publishTemplate = Except.ok ro) :
    propsGet (validate env s item).2.properties "path" =
      some (PVal.str (ro ++ "/" ++ jn.format)) ∧
    (∀ d, env.findOneUser = some d →
      (∃ dlg, (publish env s item).1 = Except.ok dlg ∧
        dlg.outputPathText = ro) ∧
      propsGet (publish env s item).2.properties "path" =
        some (PVal.str ro)) := by
  constructor
  · simp only [validate, hjn, hro]
    split
    · exact propsGet_propsSet_self _ _ _
    · split
      · exact propsGet_propsSet_self _ _ _
      · split
        · exact propsGet_propsSet_self _ _ _
        · split
          · exact propsGet_propsSet_self _ _ _
          · exact propsGet_propsSet_self _ _ _
  · intro d hd
    have hp := publish_spec env s item jn ro d hjn hro hd
    refine ⟨⟨builtDialog env jn d ro, ?_, rfl⟩, ?_⟩
    · rw [hp]
    · rw [hp]
      exact propsGet_propsSet_self _ _ _

/-- C6 witness: the amended relation at concrete inputs — `validate`
stores the output with the job name appended, `publish` stores the bare
output. -/
theorem C6_witness :
    propsGet (validate envSaved setTpl itemJob).2.properties "path" =
      some (PVal.str ("base/RenderJob_shot010/" ++ "/" ++
        (PVal.str "RenderJob_shot010").format)) ∧
    (∃ dlg, (publish envSaved setTpl itemJob).1 = Except.ok dlg ∧
      dlg.outputPathText = "base/RenderJob_shot010/") ∧
    propsGet (publish envSaved setTpl itemJob).2.properties "path" =
      some (PVal.str "base/RenderJob_shot010/") := by
  have h := C6_theorem envSaved setTpl itemJob (PVal.str "RenderJob_shot010")
    "base/RenderJob_shot010/" rfl rfl
  exact ⟨h.1, (h.2 (some "comp") rfl).1, (h.2 (some "comp") rfl).2⟩

/-! ### Claim C7 -/

/-- C7 counterexample: when the tracking-service lookup returns no record
at all, `publish` does not push `None` as the department — subscripting
the `None` result raises `TypeError`, aborting the publish. -/
theorem C7_counterexample :
    (publish envNoRecord setTpl itemJob).1 = Except.error PyError.typeError ∧
    ¬ ∃ dlg, (publish envNoRecord setTpl itemJob).1 = Except.ok dlg := by
  refine ⟨rfl, ?_⟩
  rintro ⟨dlg, h⟩
  rw [show (publish envNoRecord setTpl itemJob).1 =
    Except.error PyError.typeError from rfl] at h
  cases h

/-- C7 (amended): only one of the two optionality layers is survived — a
present record whose nested `department` field is null makes `publish`
push `None` into the department field without raising, while a missing
record (`find_one` returning `None`) makes `publish` raise `TypeError`
at `department['department']`. -/
theorem C7_theorem (env : MayaEnv) (s : Settings) (item : Item)
    (jn : PVal) (ro : String)
    (hjn : propsGet item.properties "render_job_name" = some jn)
    (hro : getRenderOutput env jn s.publishTemplate = Except.ok ro) :
    (env.findOneUser = some Option.none →
      ∃ dlg, (publish env s item).1 = Except.ok dlg ∧
        dlg.departmentText = Option.none) ∧
    (env.findOneUser = Option.none →
      (publish env s item).1 = Except.error PyError.typeError) := by
  constructor
  · intro hd
    have hp := publish_spec env s item jn ro Option.none hjn hro hd
    refine ⟨builtDialog env jn Option.none ro, ?_, rfl⟩
    rw [hp]
  · intro hd
    simp [publish, hjn, hro, hd]

/-- C7 witness: the amended statement at concrete environments — a null
nested department yields a dialog with department `None`, a missing
record yields `TypeError`. -/
theorem C7_witness :
    (∃ dlg, (publish envDeptNull setTpl itemJob).1 = Except.ok dlg ∧
      dlg.departmentText = Option.none) ∧
    (publish envNoRecord setTpl itemJob).1 =
      Except.error PyError.typeError :=
  ⟨(C7_theorem envDeptNull setTpl itemJob (PVal.str "RenderJob_shot010")
      "base/RenderJob_shot010/" rfl rfl).1 rfl,
   (C7_theorem envNoRecord setTpl itemJob (PVal.str "RenderJob_shot010")
      "base/RenderJob_shot010/" rfl rfl).2 rfl⟩

/-! ### Claim C8 -/

/-- C8 counterexample: collection can raise — with a session item present
and a saved scene whose short name contains no dot (here `"foo"`),
`scene_name.split('.')[-2]` raises `IndexError` and
`process_current_session` propagates it. -/
theorem C8_counterexample :
    process_current_session (envBare "foo") =
      Except.error PyError.indexError := rfl

/-- C8 (amended): collection never raises provided the saved scene's short
name, when non-empty, splits on `.` into at least two segments (which
Maya's extension-bearing saved file names always do): a missing session
item, an unsaved scene, and an unresolved camera transform parent all
complete without propagating an exception. -/
theorem C8_theorem (env : MayaEnv)
    (h : env.sceneName = "" ∨ 2 ≤ (pySplitDot env.sceneName).length) :
    ∃ items, process_current_session env = Except.ok items := by
  unfold process_current_session collectRenderJob getSceneName pyIdxNeg2
  cases henv : env.hasSessionItem with
  | false => exact ⟨[], rfl⟩
  | true =>
      by_cases h1 : env.sceneName = ""
      · rw [if_pos h1]
        exact ⟨_, rfl⟩
      · have h2 : 2 ≤ (pySplitDot env.sceneName).length := by
          cases h with
          | inl h => exact absurd h h1
          | inr h => exact h
        rw [if_neg h1, dif_pos h2]
        exact ⟨_, rfl⟩

/-- C8 witness: the amended statement at a session-item-bearing
environment with an unresolved camera parent and the saved scene
`"scene.ma"`. -/
theorem C8_witness :
    ∃ items, process_current_session (envBare "scene.ma") =
      Except.ok items :=
  C8_theorem (envBare "scene.ma") (Or.inr (by decide))

/-! ### Claim C9 -/

/-- C9 counterexample: for job name `"RenderJob_shot010"`, project id 7,
task id 42 and user id 3, the label `publish` pushes is
`"RenderJob_shot010_SG_DATA_\x7b'project_id': 7, 'user_id': 3,
'task_id': 42\x7d"` — CPython 2.7 reprs the dict in hash-slot order, with
`user_id` before `task_id` — and not the claimed insertion-order string
`"RenderJob_shot010_SG_DATA_\x7b'project_id': 7, 'task_id': 42,
'user_id': 3\x7d"`. -/
theorem C9_counterexample :
    (∃ dlg, (publish envSaved setTpl itemJob).1 = Except.ok dlg ∧
      dlg.jobNameText =
        "RenderJob_shot010_SG_DATA_\x7b\x27project_id\x27: 7, \x27user_id\x27: 3, \x27task_id\x27: 42\x7d") ∧
    ¬ ∃ dlg, (publish envSaved setTpl itemJob).1 = Except.ok dlg ∧
      dlg.jobNameText =
        "RenderJob_shot010_SG_DATA_\x7b\x27project_id\x27: 7, \x27task_id\x27: 42, \x27user_id\x27: 3\x7d" := by
  constructor
  · exact ⟨builtDialog envSaved (PVal.str "RenderJob_shot010")
      (some "comp") "base/RenderJob_shot010/", rfl, rfl⟩
  · rintro ⟨dlg, h1, h2⟩
    rw [show (publish envSaved setTpl itemJob).1 =
      Except.ok (builtDialog envSaved (PVal.str "RenderJob_shot010")
        (some "comp") "base/RenderJob_shot010/") from rfl] at h1
    cases h1
    exact absurd h2 (by decide)

/-- C9 (amended): the composite label `publish` writes into the job-name
field is exactly `"<job_name>_SG_DATA_"` followed by the CPython 2.7 repr
of the dict `\x7b'project_id': ..., 'task_id': ..., 'user_id': ...\x7d`,
which lists the entries in hash-slot order (`project_id`, `user_id`,
`task_id`), not in the insertion order of the source's dict literal. -/
theorem C9_theorem (env : MayaEnv) (s : Settings) (item : Item) (jn : PVal)
    (hjn : propsGet item.properties "render_job_name" = some jn)
    (dlg : Dialog)
    (hpub : (publish env s item).1 = Except.ok dlg) :
    dlg.jobNameText = jn.format ++ "_SG_DATA_" ++
      dictReprCtx env.projectId env.taskId env.userId := by
  cases hro : getRenderOutput env jn s.publishTemplate with
  | error e => simp [publish, hjn, hro] at hpub
  | ok ro =>
      cases hd : env.findOneUser with
      | none => simp [publish, hjn, hro, hd] at hpub
      | some d =>
          rw [publish_spec env s item jn ro d hjn hro hd] at hpub
          cases hpub
          rfl

/-- C9 witness: for job name `"RenderJob_shot010"`, project id 7, task id
42 and user id 3, the pushed label is exactly
`"RenderJob_shot010_SG_DATA_\x7b'project_id': 7, 'user_id': 3,
'task_id': 42\x7d"`. -/
theorem C9_witness :
    (builtDialog envSaved (PVal.str "RenderJob_shot010") (some "comp")
        "base/RenderJob_shot010/").jobNameText =
      "RenderJob_shot010_SG_DATA_\x7b\x27project_id\x27: 7, \x27user_id\x27: 3, \x27task_id\x27: 42\x7d" :=
  (C9_theorem envSaved setTpl itemJob (PVal.str "RenderJob_shot010") rfl
    (builtDialog envSaved (PVal.str "RenderJob_shot010") (some "comp")
      "base/RenderJob_shot010/") rfl).trans rfl

/-! ### Claim C10 -/

/-- C10: `validate` stores the computed output path in
`item.properties["path"]` before the saved-session check, so when it
raises because the session path is empty, the returned item state has
already been mutated — `validate` is not atomic on this error. -/
theorem C10_theorem (env : MayaEnv) (s : Settings) (item : Item)
    (jn : PVal) (ro : String)
    (hjn : propsGet item.properties "render_job_name" = some jn)
    (hro : getRenderOutput env jn s.publishTemplate = Except.ok ro)
    (hpath : env.sessionPath = "") :
    (validate env s item).1 = Except.error PyError.sessionNotSaved ∧
    propsGet (validate env s item).2.properties "path" =
      some (PVal.str (ro ++ "/" ++ jn.format)) := by
  constructor
  · simp [validate, hjn, hro, sessionPathQ, hpath]
  · simp only [validate, hjn, hro]
    have hq : sessionPathQ env = "" := hpath
    rw [if_pos hq]
    exact propsGet_propsSet_self _ _ _

/-- C10 witness: at a concrete unsaved session, `validate` raises the
session-not-saved exception and the item's `path` property holds the
computed output. -/
theorem C10_witness :
    (validate envUnsaved setTpl itemJob).1 =
      Except.error PyError.sessionNotSaved ∧
    propsGet (validate envUnsaved setTpl itemJob).2.properties "path" =
      some (PVal.str ("base/RenderJob_shot010/" ++ "/" ++
        (PVal.str "RenderJob_shot010").format)) :=
  C10_theorem envUnsaved setTpl itemJob (PVal.str "RenderJob_shot010")
    "base/RenderJob_shot010/" rfl rfl rfl
